import Mathlib

/-!
Verification of the chayakkada-near-me server (src/server.js and its
middleware) against its natural-language specification.

The development shallowly embeds the request handlers of the two server
variants (the basic one and the secure one; their search/ranking logic is
textually identical) as pure Lean functions.  External effects are passed
in explicitly:

* the PostGIS candidate query result is a `List Candidate` (or an
  `Except` to model the query throwing),
* the Google Distance Matrix response is a `List MatrixElement` wrapped
  in `Except` to model a whole-batch network failure,
* the PostgreSQL tables are a `DBState` record, and each SQL statement of
  the source is translated to a function on `DBState`.

JavaScript numbers are modelled as `ℚ`; the truthiness tests the code
performs (`!latitude`, `if (maxDistance)`, `reviewer_name || 'Anonymous'`)
are modelled exactly, with `undefined` as `none` and the falsiness of `0`
and `""` made explicit.
-/

namespace Chayakkada

/-! ### JavaScript truthiness -/

/-- Truthiness of an optional JS number: `undefined` and `0` are falsy. -/
def jsTruthyNum : Option ℚ → Bool
  | none => false
  | some x => decide (x ≠ 0)

/-- Truthiness of an optional JS integer: `undefined` and `0` are falsy. -/
def jsTruthyInt : Option ℤ → Bool
  | none => false
  | some x => decide (x ≠ 0)

/-- Truthiness of an optional JS string: `undefined` and `""` are falsy. -/
def jsTruthyStr : Option String → Bool
  | none => false
  | some s => decide (s ≠ "")

/-- JS `String.prototype.trim()`: strip leading and trailing whitespace
from the character sequence. -/
def jsTrim (s : String) : String :=
  ⟨((s.data.dropWhile Char.isWhitespace).reverse.dropWhile Char.isWhitespace).reverse⟩

/-! ### Number formatting used by the search pipeline -/

/-- Model of `(x).toFixed(2)` on the nonnegative distances the pipeline formats:
round to two decimal places (half up).  The resulting string is later read
back by `parseFloat`, so we keep it as the rounded rational. -/
def toFixed2 (x : ℚ) : ℚ := (⌊x * 100 + 1/2⌋ : ℤ) / 100

/-- Model of `Math.round(x)`: the integer nearest to `x`, half towards positive
infinity, i.e. `⌊x + 1/2⌋`. -/
def jsRound (x : ℚ) : ℤ := ⌊x + 1/2⌋

/-! ### Search pipeline data (`POST /api/search`, src/server.js) -/

/-- One row of the PostGIS candidate query: a shop together with its
straight-line distance (meters) from the origin, in the query's
`ORDER BY straight_distance ASC` order.  Joined metadata fields are
irrelevant to the verified claims and are elided. -/
structure Candidate where
  id : ℕ
  name : String
  straight_distance : ℚ
  deriving DecidableEq

/-- One element of the Distance Matrix response row:
`element.status`, `element.distance.value` (meters) and
`element.duration.value` (seconds). -/
structure MatrixElement where
  status : String
  distanceValue : ℚ
  durationValue : ℚ
  deriving DecidableEq

/-- A merged search result: the candidate enriched with walking data.
`walkingDistance` is in km after `toFixed(2)`, `walkingTime` in whole
minutes after `Math.round`; both are `none` when the matrix element was
missing or unsuccessful. -/
structure ShopResult where
  shop : Candidate
  walkingDistance : Option ℚ
  walkingTime : Option ℤ
  straight_distance_km : ℚ
  deriving DecidableEq

/-- The per-candidate merge of src/server.js lines 193–211: look up the
same-index matrix element; on `status === 'OK'` attach rounded walking
distance/time, otherwise leave both `null`. -/
def combineShop (shop : Candidate) (element : Option MatrixElement) : ShopResult :=
  match element with
  | some e =>
    if e.status = "OK" then
      { shop := shop
        walkingDistance := some (toFixed2 (e.distanceValue / 1000))
        walkingTime := some (jsRound (e.durationValue / 60))
        straight_distance_km := toFixed2 (shop.straight_distance / 1000) }
    else
      { shop := shop, walkingDistance := none, walkingTime := none
        straight_distance_km := toFixed2 (shop.straight_distance / 1000) }
  | none =>
      { shop := shop, walkingDistance := none, walkingTime := none
        straight_distance_km := toFixed2 (shop.straight_distance / 1000) }

/-- Model of `result.rows.map((shop, index) => ...)`: each candidate is paired with
the matrix element at its own index (`undefined` past the end). -/
def mergeShops : List Candidate → List MatrixElement → List ShopResult
  | [], _ => []
  | c :: cs, [] => combineShop c none :: mergeShops cs []
  | c :: cs, e :: es => combineShop c (some e) :: mergeShops cs es

/-- Model of `shops.filter(shop => shop.walkingDistance !== null)`. -/
def nullFiltered (rows : List Candidate) (elems : List MatrixElement) : List ShopResult :=
  (mergeShops rows elems).filter (fun s => s.walkingDistance.isSome)

/-- Model of `if (maxDistance) filtered = filtered.filter(shop =>
parseFloat(shop.walkingDistance) <= maxDistance)`.  `parseFloat(null)` is
`NaN` and every comparison with `NaN` is false. -/
def applyMaxDistance (maxDistance : Option ℚ) (l : List ShopResult) : List ShopResult :=
  if jsTruthyNum maxDistance then
    l.filter (fun s =>
      match s.walkingDistance with
      | some d => decide (d ≤ maxDistance.getD 0)
      | none => false)
  else l

/-- Model of `if (maxWalkingTime) filtered = filtered.filter(shop =>
shop.walkingTime <= maxWalkingTime)`.  A `null` walking time coerces to
`0` under JS `<=`; that branch is unreachable after the null filter. -/
def applyMaxWalkingTime (maxWalkingTime : Option ℤ) (l : List ShopResult) : List ShopResult :=
  if jsTruthyInt maxWalkingTime then
    l.filter (fun s =>
      match s.walkingTime with
      | some t => decide (t ≤ maxWalkingTime.getD 0)
      | none => decide ((0 : ℤ) ≤ maxWalkingTime.getD 0))
  else l

/-- Numeric value the sort comparator `(a, b) => a.walkingTime - b.walkingTime`
sees: a `null` walking time coerces to `0`. -/
def wtVal (s : ShopResult) : ℤ := s.walkingTime.getD 0

/-- Ordering induced by the comparator: ascending walking time. -/
def sortLe (a b : ShopResult) : Bool := decide (wtVal a ≤ wtVal b)

/-- The full ranking pipeline after the candidate query and the matrix
call: merge, drop unenriched, apply the two optional filters, then
`filtered.sort((a, b) => a.walkingTime - b.walkingTime)` — a stable sort
per the ECMAScript specification, modelled by `List.mergeSort`. -/
def rankedShops (rows : List Candidate) (elems : List MatrixElement)
    (maxDistance : Option ℚ) (maxWalkingTime : Option ℤ) : List ShopResult :=
  (applyMaxWalkingTime maxWalkingTime
    (applyMaxDistance maxDistance (nullFiltered rows elems))).mergeSort sortLe

/-- The list the sort of step 7 receives (merge + null filter + user
filters, in source order). -/
def preSortShops (rows : List Candidate) (elems : List MatrixElement)
    (maxDistance : Option ℚ) (maxWalkingTime : Option ℤ) : List ShopResult :=
  applyMaxWalkingTime maxWalkingTime
    (applyMaxDistance maxDistance (nullFiltered rows elems))

/-! ### The search endpoint -/

/-- Body of a `POST /api/search` request, already parsed as JSON. -/
structure SearchRequest where
  latitude : Option ℚ
  longitude : Option ℚ
  maxDistance : Option ℚ
  maxWalkingTime : Option ℤ
  deriving DecidableEq

/-- Observable outcome of a search request: HTTP 400 with an error
message, HTTP 200 with the ranked list, or HTTP 500 (the catch block). -/
inductive SearchResponse where
  | badRequest (msg : String)
  | results (shops : List ShopResult)
  | serviceError (msg : String)
  deriving DecidableEq

/-- The search route handler (src/server.js lines 128–233 and 791–902;
the two variants are textually identical here).  `dbOutcome` is the
outcome of the PostGIS candidate query and `enrichment` the outcome of
the whole-batch Distance Matrix call; an `Except.error` models the call
throwing, which the surrounding `catch` turns into a 500 response. -/
def searchHandler (req : SearchRequest)
    (dbOutcome : Except String (List Candidate))
    (enrichment : Except String (List MatrixElement)) : SearchResponse :=
  if !jsTruthyNum req.latitude || !jsTruthyNum req.longitude then
    .badRequest "Latitude and longitude are required"
  else
    match dbOutcome with
    | .error msg => .serviceError msg
    | .ok [] => .results []
    | .ok rows =>
      match enrichment with
      | .error msg => .serviceError msg
      | .ok elems => .results (rankedShops rows elems req.maxDistance req.maxWalkingTime)

/-! ### validateSearch (middleware/validators.js) -/

/-- Model of `body('latitude').isFloat(\x7b min: -90, max: 90 \x7d)`: the field must
be present and in range. -/
def validLatitude : Option ℚ → Bool
  | none => false
  | some x => decide (-90 ≤ x) && decide (x ≤ 90)

/-- Model of `body('longitude').isFloat(\x7b min: -180, max: 180 \x7d)`. -/
def validLongitude : Option ℚ → Bool
  | none => false
  | some x => decide (-180 ≤ x) && decide (x ≤ 180)

/-- Model of `body('maxDistance').optional().isFloat(\x7b min: 0.1, max: 100 \x7d)`. -/
def validMaxDistance : Option ℚ → Bool
  | none => true
  | some x => decide (1/10 ≤ x) && decide (x ≤ 100)

/-- Model of `body('maxWalkingTime').optional().isInt(\x7b min: 1, max: 300 \x7d)`. -/
def validMaxWalkingTime : Option ℤ → Bool
  | none => true
  | some x => decide (1 ≤ x) && decide (x ≤ 300)

/-- The `validateSearch` middleware chain: all four field checks must
pass, otherwise the request is answered with a 400 before the handler
runs. -/
def validateSearch (req : SearchRequest) : Bool :=
  validLatitude req.latitude && validLongitude req.longitude &&
  validMaxDistance req.maxDistance && validMaxWalkingTime req.maxWalkingTime

/-- The secure-variant search endpoint: `validateSearch` middleware in
front of the route handler. -/
def searchEndpoint (req : SearchRequest)
    (dbOutcome : Except String (List Candidate))
    (enrichment : Except String (List MatrixElement)) : SearchResponse :=
  if validateSearch req then searchHandler req dbOutcome enrichment
  else .badRequest "Validation failed"

/-! ### Helper lemmas about the pipeline -/

theorem sortLe_trans : ∀ a b c : ShopResult, sortLe a b → sortLe b c → sortLe a c := by
  intro a b c hab hbc
  simp only [sortLe, decide_eq_true_eq] at *
  omega

theorem sortLe_total : ∀ a b : ShopResult, sortLe a b || sortLe b a := by
  intro a b
  simp only [sortLe, Bool.or_eq_true, decide_eq_true_eq]
  omega

theorem pairwise_filter_tied (p : ShopResult → Bool)
    (hp : ∀ a b, p a = true → p b = true → sortLe a b = true) :
    ∀ l : List ShopResult, (l.filter p).Pairwise (fun a b => sortLe a b = true)
  | [] => by simp
  | a :: l => by
    rw [List.filter_cons]
    by_cases h : p a
    · simp only [h, if_pos]
      exact List.Pairwise.cons
        (fun b hb => hp a b h (List.mem_filter.mp hb).2)
        (pairwise_filter_tied p hp l)
    · simp only [h, Bool.false_eq_true, if_false]
      exact pairwise_filter_tied p hp l

/-- Stability of the modelled JS sort: filtering out one equivalence class
of the comparator commutes with sorting, so tied elements keep their
relative order. -/
theorem filter_mergeSort_tied (l : List ShopResult) (p : ShopResult → Bool)
    (hp : ∀ a b, p a = true → p b = true → sortLe a b = true) :
    (l.mergeSort sortLe).filter p = l.filter p := by
  have h1 : (l.filter p).Sublist (l.mergeSort sortLe) :=
    List.sublist_mergeSort sortLe_trans sortLe_total
      (pairwise_filter_tied p hp l) (List.filter_sublist l)
  have h2 : (l.filter p).Sublist ((l.mergeSort sortLe).filter p) := by
    have h := List.Sublist.filter p h1
    rwa [List.filter_filter, show (fun a => p a && p a) = p from funext fun a => Bool.and_self _] at h
  have h3 : ((l.mergeSort sortLe).filter p).length = (l.filter p).length :=
    ((List.mergeSort_perm l sortLe).filter p).length_eq
  exact (h2.eq_of_length h3.symm).symm

theorem combineShop_shop (c : Candidate) (e? : Option MatrixElement) :
    (combineShop c e?).shop = c := by
  cases e? with
  | none => rfl
  | some e => by_cases h : e.status = "OK" <;> simp [combineShop, h]

theorem combineShop_isSome_iff (c : Candidate) (e? : Option MatrixElement) :
    (combineShop c e?).walkingDistance.isSome = true ↔
      ∃ e, e? = some e ∧ e.status = "OK" := by
  cases e? with
  | none => simp [combineShop]
  | some e => by_cases h : e.status = "OK" <;> simp [combineShop, h]

theorem combineShop_time_eq_dist_isSome (c : Candidate) (e? : Option MatrixElement) :
    (combineShop c e?).walkingTime.isSome = (combineShop c e?).walkingDistance.isSome := by
  cases e? with
  | none => rfl
  | some e => by_cases h : e.status = "OK" <;> simp [combineShop, h]

theorem mergeShops_map_shop : ∀ (rows : List Candidate) (elems : List MatrixElement),
    (mergeShops rows elems).map ShopResult.shop = rows
  | [], _ => rfl
  | c :: cs, [] => by
    simp [mergeShops, combineShop_shop, mergeShops_map_shop cs []]
  | c :: cs, e :: es => by
    simp [mergeShops, combineShop_shop, mergeShops_map_shop cs es]

theorem mem_mergeShops_iff : ∀ (rows : List Candidate) (elems : List MatrixElement)
    (s : ShopResult), s ∈ mergeShops rows elems ↔
      ∃ (i : ℕ) (c : Candidate), rows[i]? = some c ∧ s = combineShop c elems[i]?
  | [], elems, s => by simp [mergeShops]
  | c :: cs, [], s => by
    simp only [mergeShops, List.mem_cons, mem_mergeShops_iff cs []]
    constructor
    · rintro (rfl | ⟨i, c', hi, rfl⟩)
      · exact ⟨0, c, by simp, by simp⟩
      · exact ⟨i + 1, c', by simpa using hi, by simp⟩
    · rintro ⟨i, c', hi, rfl⟩
      cases i with
      | zero =>
        left
        simp only [List.getElem?_cons_zero, Option.some.injEq] at hi
        subst hi
        simp
      | succ j =>
        right
        exact ⟨j, c', by simpa using hi, by simp⟩
  | c :: cs, e :: es, s => by
    simp only [mergeShops, List.mem_cons, mem_mergeShops_iff cs es]
    constructor
    · rintro (rfl | ⟨i, c', hi, rfl⟩)
      · exact ⟨0, c, by simp, by simp⟩
      · exact ⟨i + 1, c', by simpa using hi, by simp⟩
    · rintro ⟨i, c', hi, rfl⟩
      cases i with
      | zero =>
        left
        simp only [List.getElem?_cons_zero, Option.some.injEq] at hi
        subst hi
        simp
      | succ j =>
        right
        exact ⟨j, c', by simpa using hi, by simp⟩

theorem mem_nullFiltered_iff {rows : List Candidate} {elems : List MatrixElement}
    {s : ShopResult} : s ∈ nullFiltered rows elems ↔
      ∃ (i : ℕ) (c : Candidate) (e : MatrixElement),
        rows[i]? = some c ∧ elems[i]? = some e ∧ e.status = "OK" ∧
        s = combineShop c (some e) := by
  unfold nullFiltered
  rw [List.mem_filter, mem_mergeShops_iff]
  constructor
  · rintro ⟨⟨i, c, hi, rfl⟩, hsome⟩
    obtain ⟨e, he, hok⟩ := (combineShop_isSome_iff c elems[i]?).mp hsome
    exact ⟨i, c, e, hi, he, hok, by rw [he]⟩
  · rintro ⟨i, c, e, hi, he, hok, rfl⟩
    refine ⟨⟨i, c, hi, by rw [he]⟩, ?_⟩
    exact (combineShop_isSome_iff c (some e)).mpr ⟨e, rfl, hok⟩

theorem applyMaxDistance_sublist (maxDistance : Option ℚ) (l : List ShopResult) :
    (applyMaxDistance maxDistance l).Sublist l := by
  unfold applyMaxDistance
  split
  · exact List.filter_sublist l
  · exact List.Sublist.refl l

theorem applyMaxWalkingTime_sublist (maxWalkingTime : Option ℤ) (l : List ShopResult) :
    (applyMaxWalkingTime maxWalkingTime l).Sublist l := by
  unfold applyMaxWalkingTime
  split
  · exact List.filter_sublist l
  · exact List.Sublist.refl l

theorem preSortShops_sublist_nullFiltered (rows : List Candidate)
    (elems : List MatrixElement) (maxDistance : Option ℚ) (maxWalkingTime : Option ℤ) :
    (preSortShops rows elems maxDistance maxWalkingTime).Sublist (nullFiltered rows elems) :=
  (applyMaxWalkingTime_sublist _ _).trans (applyMaxDistance_sublist _ _)

theorem mem_rankedShops_iff {rows : List Candidate} {elems : List MatrixElement}
    {maxDistance : Option ℚ} {maxWalkingTime : Option ℤ} {s : ShopResult} :
    s ∈ rankedShops rows elems maxDistance maxWalkingTime ↔
      s ∈ preSortShops rows elems maxDistance maxWalkingTime := by
  unfold rankedShops preSortShops
  exact List.mem_mergeSort

theorem mem_rankedShops_isSome {rows : List Candidate} {elems : List MatrixElement}
    {maxDistance : Option ℚ} {maxWalkingTime : Option ℤ} {s : ShopResult}
    (h : s ∈ rankedShops rows elems maxDistance maxWalkingTime) :
    s.walkingDistance.isSome = true ∧ s.walkingTime.isSome = true := by
  have hmem : s ∈ nullFiltered rows elems :=
    (preSortShops_sublist_nullFiltered rows elems maxDistance maxWalkingTime).mem
      (mem_rankedShops_iff.mp h)
  obtain ⟨i, c, e, _, _, hok, rfl⟩ := mem_nullFiltered_iff.mp hmem
  have hd : (combineShop c (some e)).walkingDistance.isSome = true :=
    (combineShop_isSome_iff c (some e)).mpr ⟨e, rfl, hok⟩
  exact ⟨hd, (combineShop_time_eq_dist_isSome c (some e)).trans hd ▸ rfl⟩

/-! ### C1 -/

/-- C1: every list produced by the ranking pipeline is sorted ascending by
walking time, elements with equal walking time keep the relative order
they had in the list fed to the sort (stability of the ES2019 `sort`),
and that pre-sort list is an order-preserving selection from the
candidate list, i.e. it inherits the Geo Store's ascending
straight-line-distance order. -/
theorem ranked_results_sorted_stable (rows : List Candidate) (elems : List MatrixElement)
    (maxDistance : Option ℚ) (maxWalkingTime : Option ℤ) :
    (rankedShops rows elems maxDistance maxWalkingTime).Pairwise
        (fun a b => wtVal a ≤ wtVal b) ∧
    (∀ t : ℤ,
      (rankedShops rows elems maxDistance maxWalkingTime).filter
          (fun s => s.walkingTime == some t)
        = (preSortShops rows elems maxDistance maxWalkingTime).filter
            (fun s => s.walkingTime == some t)) ∧
    ((preSortShops rows elems maxDistance maxWalkingTime).map ShopResult.shop).Sublist rows := by
  refine ⟨?_, ?_, ?_⟩
  · have h := List.sorted_mergeSort sortLe_trans sortLe_total
      (preSortShops rows elems maxDistance maxWalkingTime)
    exact h.imp (fun hab => by simpa [sortLe, decide_eq_true_eq] using hab)
  · intro t
    apply filter_mergeSort_tied
    intro a b ha hb
    simp only [beq_iff_eq] at ha hb
    simp [sortLe, wtVal, ha, hb]
  · have h1 : (preSortShops rows elems maxDistance maxWalkingTime).Sublist
        (mergeShops rows elems) :=
      (preSortShops_sublist_nullFiltered rows elems maxDistance maxWalkingTime).trans
        (List.filter_sublist _)
    have h2 := h1.map ShopResult.shop
    rwa [mergeShops_map_shop] at h2

/-! ### C2 -/

/-- C2: the merge pairs each candidate with the enrichment element at its
own index and keeps it exactly when that element exists and has status
`"OK"`; consequently every result in the final ranked list carries a
non-null walking distance and walking time. -/
theorem merge_same_index_and_drops_failures (rows : List Candidate)
    (elems : List MatrixElement) (maxDistance : Option ℚ) (maxWalkingTime : Option ℤ) :
    (∀ s : ShopResult, s ∈ nullFiltered rows elems ↔
      ∃ (i : ℕ) (c : Candidate) (e : MatrixElement),
        rows[i]? = some c ∧ elems[i]? = some e ∧ e.status = "OK" ∧
        s = combineShop c (some e)) ∧
    (∀ s ∈ rankedShops rows elems maxDistance maxWalkingTime,
      s.walkingDistance.isSome = true ∧ s.walkingTime.isSome = true) :=
  ⟨fun _ => mem_nullFiltered_iff, fun _ hs => mem_rankedShops_isSome hs⟩

/-- Witness for C2 at a concrete input: a candidate whose same-index
element is successful is kept by the merge. -/
theorem merge_same_index_and_drops_failures_witness :
    combineShop ⟨1, "Royal Tea Stall", 400⟩ (some ⟨"OK", 500, 360⟩) ∈
      nullFiltered [⟨1, "Royal Tea Stall", 400⟩] [⟨"OK", 500, 360⟩] :=
  ((merge_same_index_and_drops_failures [⟨1, "Royal Tea Stall", 400⟩]
      [⟨"OK", 500, 360⟩] none none).1 _).mpr
    ⟨0, ⟨1, "Royal Tea Stall", 400⟩, ⟨"OK", 500, 360⟩, by simp, by simp, rfl, rfl⟩

/-! ### C3 -/

/-- C3: whenever the (validated) search endpoint returns a result list
and `maxDistance` was provided, every returned result's walking distance
is at most `maxDistance`; likewise for `maxWalkingTime`; the two bounds
hold simultaneously when both are provided. -/
theorem filters_bound_results (req : SearchRequest)
    (dbOutcome : Except String (List Candidate))
    (enrichment : Except String (List MatrixElement))
    (l : List ShopResult)
    (hres : searchEndpoint req dbOutcome enrichment = .results l) :
    (∀ d : ℚ, req.maxDistance = some d →
      ∀ s ∈ l, ∃ wd, s.walkingDistance = some wd ∧ wd ≤ d) ∧
    (∀ t : ℤ, req.maxWalkingTime = some t →
      ∀ s ∈ l, ∃ wt, s.walkingTime = some wt ∧ wt ≤ t) := by
  unfold searchEndpoint at hres
  by_cases hv : validateSearch req = true
  swap
  · simp [hv] at hres
  rw [if_pos hv] at hres
  simp only [validateSearch, Bool.and_eq_true] at hv
  obtain ⟨⟨⟨-, -⟩, hmd⟩, hmt⟩ := hv
  unfold searchHandler at hres
  by_cases htr : (!jsTruthyNum req.latitude || !jsTruthyNum req.longitude) = true
  · rw [if_pos htr] at hres
    exact absurd hres (by simp)
  rw [if_neg htr] at hres
  cases dbOutcome with
  | error m => simp at hres
  | ok rows =>
    cases rows with
    | nil =>
      simp only [SearchResponse.results.injEq] at hres
      subst hres
      simp
    | cons r rs =>
      cases enrichment with
      | error m => simp at hres
      | ok elems =>
        simp only [SearchResponse.results.injEq] at hres
        subst hres
        constructor
        · intro d hd s hs
          rw [hd] at hmd
          have hdpos : (1 : ℚ)/10 ≤ d := by
            simp only [validMaxDistance, Bool.and_eq_true, decide_eq_true_eq] at hmd
            exact hmd.1
          have htruthy : jsTruthyNum (some d) = true := by
            simp only [jsTruthyNum, decide_eq_true_eq]
            intro h0
            rw [h0] at hdpos
            norm_num at hdpos
          have hs' : s ∈ applyMaxDistance req.maxDistance (nullFiltered (r :: rs) elems) :=
            (applyMaxWalkingTime_sublist _ _).mem (mem_rankedShops_iff.mp hs)
          rw [hd] at hs'
          unfold applyMaxDistance at hs'
          rw [if_pos htruthy] at hs'
          have hpred := (List.mem_filter.mp hs').2
          cases hwd : s.walkingDistance with
          | none => rw [hwd] at hpred; simp at hpred
          | some wd =>
            rw [hwd] at hpred
            simp only [decide_eq_true_eq, Option.getD_some] at hpred
            exact ⟨wd, rfl, hpred⟩
        · intro t ht s hs
          rw [ht] at hmt
          have htpos : (1 : ℤ) ≤ t := by
            simp only [validMaxWalkingTime, Bool.and_eq_true, decide_eq_true_eq] at hmt
            exact hmt.1
          have htruthy : jsTruthyInt (some t) = true := by
            simp only [jsTruthyInt, decide_eq_true_eq]
            omega
          have hsome := (mem_rankedShops_isSome hs).2
          have hs' : s ∈ preSortShops (r :: rs) elems req.maxDistance req.maxWalkingTime :=
            mem_rankedShops_iff.mp hs
          unfold preSortShops at hs'
          rw [ht] at hs'
          unfold applyMaxWalkingTime at hs'
          rw [if_pos htruthy] at hs'
          have hpred := (List.mem_filter.mp hs').2
          cases hwt : s.walkingTime with
          | none => rw [hwt] at hsome; simp at hsome
          | some wt =>
            rw [hwt] at hpred
            simp only [decide_eq_true_eq, Option.getD_some] at hpred
            exact ⟨wt, rfl, hpred⟩

/-! ### C4 -/

/-- C4: if the whole-batch enrichment call throws while there are
candidates, the search answers with the 500 service-error response and
never with a result list — in particular not with the empty list that a
zero-candidate search returns (third conjunct). -/
theorem enrichment_failure_is_service_error (req : SearchRequest)
    (rows : List Candidate) (msg : String)
    (hlat : jsTruthyNum req.latitude = true)
    (hlng : jsTruthyNum req.longitude = true)
    (hrows : rows ≠ []) :
    searchHandler req (.ok rows) (.error msg) = .serviceError msg ∧
    (∀ l, searchHandler req (.ok rows) (.error msg) ≠ .results l) ∧
    (∀ enrichment, searchHandler req (.ok []) enrichment = .results []) := by
  unfold searchHandler
  simp only [hlat, hlng, Bool.not_true, Bool.or_self, Bool.false_eq_true, if_false]
  cases rows with
  | nil => exact absurd rfl hrows
  | cons r rs =>
    refine ⟨?_, ?_, ?_⟩ <;> simp

/-- Witness for C4 at a concrete input: three candidates, enrichment
throws, the handler answers 500 and not a result list. -/
theorem enrichment_failure_is_service_error_witness :
    searchHandler ⟨some 9, some 76, none, none⟩
        (.ok [⟨1, "A", 100⟩, ⟨2, "B", 200⟩, ⟨3, "C", 300⟩])
        (.error "network error")
      = .serviceError "network error" :=
  (enrichment_failure_is_service_error ⟨some 9, some 76, none, none⟩
    [⟨1, "A", 100⟩, ⟨2, "B", 200⟩, ⟨3, "C", 300⟩] "network error"
    (by norm_num [jsTruthyNum]) (by norm_num [jsTruthyNum]) (by simp)).1

/-- Witness for C3 at a concrete input: with `maxDistance = 2` km and
`maxWalkingTime = 20` min, the single returned shop (walking distance
0.50 km, walking time 6 min) satisfies both bounds. -/
theorem filters_bound_results_witness :
    ∃ wd, (combineShop ⟨1, "Royal Tea Stall", 400⟩ (some ⟨"OK", 500, 360⟩)).walkingDistance
        = some wd ∧ wd ≤ 2 := by
  have hres : searchEndpoint ⟨some 9, some 76, some 2, some 20⟩
      (.ok [⟨1, "Royal Tea Stall", 400⟩]) (.ok [⟨"OK", 500, 360⟩])
      = .results [combineShop ⟨1, "Royal Tea Stall", 400⟩ (some ⟨"OK", 500, 360⟩)] := by
    norm_num [searchEndpoint, validateSearch, validLatitude, validLongitude,
      validMaxDistance, validMaxWalkingTime, searchHandler, jsTruthyNum, jsTruthyInt,
      rankedShops, preSortShops, applyMaxDistance, applyMaxWalkingTime, nullFiltered,
      mergeShops, combineShop, toFixed2, jsRound, List.filter]
  exact (filters_bound_results _ _ _ _ hres).1 2 rfl _ (by simp)

/-! ### C5 -/

/-- C5 counterexample: the origin (0, 76) lies inside the valid
latitude/longitude ranges, yet the search endpoint rejects it, so "a
validly ranged origin is never rejected by this check" is false of the
code. -/
theorem valid_origin_rejected_counterexample :
    ((-90 : ℚ) ≤ 0 ∧ (0 : ℚ) ≤ 90 ∧ (-180 : ℚ) ≤ 76 ∧ (76 : ℚ) ≤ 180) ∧
    searchEndpoint ⟨some 0, some 76, none, none⟩ (.ok []) (.ok [])
      = .badRequest "Latitude and longitude are required" := by
  constructor
  · norm_num
  · norm_num [searchEndpoint, validateSearch, validLatitude, validLongitude,
      validMaxDistance, validMaxWalkingTime, searchHandler, jsTruthyNum]

/-- C5 (amended): a missing or out-of-range origin coordinate is rejected
with the validation error before any data-store access (the response does
not depend on the store or enrichment outcome); a validly ranged origin
whose coordinates are both nonzero, in a request that also passes the
optional-filter validation, is never rejected by these checks. -/
theorem origin_validation_amended (req : SearchRequest)
    (dbOutcome : Except String (List Candidate))
    (enrichment : Except String (List MatrixElement)) :
    ((validLatitude req.latitude = false ∨ validLongitude req.longitude = false) →
      searchEndpoint req dbOutcome enrichment = .badRequest "Validation failed") ∧
    (validateSearch req = true →
      jsTruthyNum req.latitude = true → jsTruthyNum req.longitude = true →
      ∀ msg, searchEndpoint req dbOutcome enrichment ≠ .badRequest msg) := by
  constructor
  · intro h
    have hv : validateSearch req = false := by
      unfold validateSearch
      rcases h with h | h <;> simp [h]
    simp [searchEndpoint, hv]
  · intro hv hlat hlng msg
    unfold searchEndpoint
    rw [if_pos hv]
    unfold searchHandler
    have htr : (!jsTruthyNum req.latitude || !jsTruthyNum req.longitude) = false := by
      simp [hlat, hlng]
    rw [htr]
    simp only [Bool.false_eq_true, if_false]
    cases dbOutcome with
    | error m => simp
    | ok rows =>
      cases rows with
      | nil => simp
      | cons r rs =>
        cases enrichment with
        | error m => simp
        | ok elems => simp

/-- Witness for C5 (amended): an out-of-range latitude is rejected by
validation; a valid nonzero origin is not rejected by either check. -/
theorem origin_validation_amended_witness :
    searchEndpoint ⟨some 200, some 76, none, none⟩ (.ok []) (.ok [])
        = .badRequest "Validation failed" ∧
    searchEndpoint ⟨some 9, some 76, none, none⟩ (.ok []) (.ok [])
        ≠ .badRequest "Latitude and longitude are required" :=
  ⟨(origin_validation_amended ⟨some 200, some 76, none, none⟩ (.ok []) (.ok [])).1
      (Or.inl (by norm_num [validLatitude])),
   (origin_validation_amended ⟨some 9, some 76, none, none⟩ (.ok []) (.ok [])).2
      (by norm_num [validateSearch, validLatitude, validLongitude,
        validMaxDistance, validMaxWalkingTime])
      (by norm_num [jsTruthyNum]) (by norm_num [jsTruthyNum]) _⟩

/-! ### C9 -/

/-- C9: an origin coordinate equal to `0` passes range validation but is
falsy, so the handler's `!latitude || !longitude` presence check rejects
the request with the missing-coordinates error; the response does not
depend on the store outcome, so the Geo Store is never reached. -/
theorem zero_coordinate_rejected (req : SearchRequest)
    (dbOutcome : Except String (List Candidate))
    (enrichment : Except String (List MatrixElement))
    (h0 : req.latitude = some 0 ∨ req.longitude = some 0)
    (hv : validateSearch req = true) :
    searchEndpoint req dbOutcome enrichment
      = .badRequest "Latitude and longitude are required" := by
  unfold searchEndpoint
  rw [if_pos hv]
  unfold searchHandler
  have htr : (!jsTruthyNum req.latitude || !jsTruthyNum req.longitude) = true := by
    rcases h0 with h | h <;> rw [h] <;> simp [jsTruthyNum]
  rw [htr]
  simp

/-- Witness for C9: latitude `0`, longitude `76`, with candidates present
in the store — still rejected as "missing" coordinates. -/
theorem zero_coordinate_rejected_witness :
    searchEndpoint ⟨some 0, some 76, none, none⟩
        (.ok [⟨1, "A", 100⟩]) (.ok [⟨"OK", 500, 360⟩])
      = .badRequest "Latitude and longitude are required" :=
  zero_coordinate_rejected _ _ _ (Or.inl rfl)
    (by norm_num [validateSearch, validLatitude, validLongitude,
      validMaxDistance, validMaxWalkingTime])

/-! ### Data store model (PostgreSQL tables of src/server.js `initDatabase`) -/

/-- A row of the `chayakkadas` table.  `location` is stored as
`ST_MakePoint($3, $4) = ST_MakePoint(longitude, latitude)`; we keep the
two coordinates directly.  `created_at` defaults to the insertion
timestamp. -/
structure ShopRow where
  id : ℕ
  google_place_id : String
  name : String
  latitude : ℚ
  longitude : ℚ
  address : Option String
  google_rating : Option ℚ
  google_photo_references : List String
  created_at : ℕ
  deriving DecidableEq

/-- A row of the `chayakkada_metadata` table. -/
structure MetadataRow where
  id : ℕ
  chayakkada_id : ℕ
  chayakkada_rating : Option ℚ
  items_available : Option String
  sells_cigarettes : Bool
  contributed_by : Option String
  contributed_at : ℕ
  deriving DecidableEq

/-- A row of the `reviews` table. -/
structure ReviewRow where
  id : ℕ
  chayakkada_id : ℕ
  review_text : String
  reviewer_name : String
  created_at : ℕ
  deriving DecidableEq

/-- The committed database state: the three tables, plus the `SERIAL`
sequences that assign fresh primary keys. -/
structure DBState where
  shops : List ShopRow
  metadata : List MetadataRow
  reviews : List ReviewRow
  nextShopId : ℕ
  nextMetadataId : ℕ
  nextReviewId : ℕ
  deriving DecidableEq

/-- The column values supplied to the shop `INSERT`. -/
structure ShopFields where
  google_place_id : String
  name : String
  latitude : ℚ
  longitude : ℚ
  address : Option String
  google_rating : Option ℚ
  google_photo_references : List String
  deriving DecidableEq

/-- Model of `INSERT INTO chayakkadas ... ON CONFLICT (google_place_id) DO UPDATE
SET name = EXCLUDED.name, address = EXCLUDED.address,
google_rating = EXCLUDED.google_rating RETURNING id`
(src/server.js lines 315–325 and 1016–1026).

The `UNIQUE` constraint on `google_place_id` makes a conflict exactly a
match on that column; the update clause touches only `name`, `address`
and `google_rating`.  On no conflict a fresh row is appended with the
next sequence id.  (Postgres may burn a sequence value even on conflict;
that bookkeeping is irrelevant to the claims and not modelled.)
`newShopRow` is the freshly inserted row of the no-conflict branch. -/
def newShopRow (db : DBState) (now : ℕ) (f : ShopFields) : ShopRow :=
  { id := db.nextShopId
    google_place_id := f.google_place_id
    name := f.name
    latitude := f.latitude
    longitude := f.longitude
    address := f.address
    google_rating := f.google_rating
    google_photo_references := f.google_photo_references
    created_at := now }

def upsertShop (db : DBState) (now : ℕ) (f : ShopFields) : DBState × ℕ :=
  match db.shops.find? (fun r => r.google_place_id == f.google_place_id) with
  | some r =>
    ({ db with shops := db.shops.map (fun s =>
        if s.google_place_id == f.google_place_id then
          { s with name := f.name, address := f.address, google_rating := f.google_rating }
        else s) }, r.id)
  | none =>
    ({ db with
        shops := db.shops ++ [newShopRow db now f]
        nextShopId := db.nextShopId + 1 }, db.nextShopId)

/-! ### POST /api/chayakkada (add shop, with transaction) -/

/-- Body of a `POST /api/chayakkada` request. -/
structure AddShopRequest where
  google_place_id : Option String
  name : Option String
  latitude : Option ℚ
  longitude : Option ℚ
  address : Option String
  google_rating : Option ℚ
  google_photo_references : Option (List String)
  chayakkada_rating : Option ℚ
  items_available : Option String
  sells_cigarettes : Option Bool
  contributed_by : Option String
  deriving DecidableEq

/-- Outcome reported to the client: 400 on missing required fields,
200 with the shop id, or 500 from the catch block. -/
inductive AddShopResponse where
  | badRequest
  | ok (id : ℕ)
  | serverError
  deriving DecidableEq

/-- Result of one add-shop request: the committed database state, the
HTTP response, and whether the pooled connection was released. -/
structure AddShopOutcome where
  db : DBState
  response : AddShopResponse
  released : Bool
  deriving DecidableEq

/-- Model of the presence check `!google_place_id || !name || !latitude || !longitude` (negated). -/
def requiredPresent (req : AddShopRequest) : Bool :=
  jsTruthyStr req.google_place_id && jsTruthyStr req.name &&
  jsTruthyNum req.latitude && jsTruthyNum req.longitude

/-- Model of `if (chayakkada_rating || items_available || sells_cigarettes !== undefined)`. -/
def metadataProvided (req : AddShopRequest) : Bool :=
  jsTruthyNum req.chayakkada_rating || jsTruthyStr req.items_available ||
  req.sells_cigarettes.isSome

/-- The column values the handler passes to the shop `INSERT`
(`JSON.stringify(google_photo_references || [])` defaults the photo list).
The `getD` defaults for the required fields are inert: the handler only
reaches the insert after `requiredPresent`. -/
def shopFieldsOfRequest (req : AddShopRequest) : ShopFields :=
  { google_place_id := req.google_place_id.getD ""
    name := req.name.getD ""
    latitude := req.latitude.getD 0
    longitude := req.longitude.getD 0
    address := req.address
    google_rating := req.google_rating
    google_photo_references := req.google_photo_references.getD [] }

/-- Model of `INSERT INTO chayakkada_metadata (chayakkada_id, chayakkada_rating,
items_available, sells_cigarettes, contributed_by) VALUES ...` with
`sells_cigarettes || false`. -/
def newMetadataRow (db : DBState) (now : ℕ) (shopId : ℕ) (req : AddShopRequest) : MetadataRow :=
  { id := db.nextMetadataId
    chayakkada_id := shopId
    chayakkada_rating := req.chayakkada_rating
    items_available := req.items_available
    sells_cigarettes := req.sells_cigarettes.getD false
    contributed_by := req.contributed_by
    contributed_at := now }

def insertMetadata (db : DBState) (now : ℕ) (shopId : ℕ) (req : AddShopRequest) : DBState :=
  { db with
    metadata := db.metadata ++ [newMetadataRow db now shopId req]
    nextMetadataId := db.nextMetadataId + 1 }

/-- The `POST /api/chayakkada` handler (src/server.js lines 291–348 and
992–1049).  The body runs inside `BEGIN`/`COMMIT` with `ROLLBACK` in the
catch block and `client.release()` in `finally`, so the returned `db` is
the state visible after the transaction: on a failure inside the
transaction it is the unchanged input state.  `metadataInsertFails`
injects a failure of the metadata `INSERT` (the step named by the
atomicity claim). -/
def addChayakkada (db : DBState) (now : ℕ) (req : AddShopRequest)
    (metadataInsertFails : Bool) : AddShopOutcome :=
  if !requiredPresent req then
    { db := db, response := .badRequest, released := true }
  else
    let p := upsertShop db now (shopFieldsOfRequest req)
    if metadataProvided req then
      if metadataInsertFails then
        { db := db, response := .serverError, released := true }
      else
        { db := insertMetadata p.1 now p.2 req, response := .ok p.2, released := true }
    else
      { db := p.1, response := .ok p.2, released := true }

/-! ### POST /api/chayakkada/:id/review -/

/-- Outcome of an add-review request. -/
inductive ReviewResponse where
  | badRequest
  | ok (review : ReviewRow)
  | serverError
  deriving DecidableEq

/-- The `POST /api/chayakkada/:id/review` handler (src/server.js lines
399–423 and 1225–1249): reject when `!review_text` or the trimmed text is
empty, otherwise insert the trimmed text with
`reviewer_name || 'Anonymous'`.  The foreign-key constraint of the
`reviews` table (schema) turns an unknown `shopId` into a store error
caught as a 500. -/
def addReview (db : DBState) (now : ℕ) (shopId : ℕ)
    (review_text : Option String) (reviewer_name : Option String) :
    DBState × ReviewResponse :=
  if !jsTruthyStr review_text then
    (db, .badRequest)
  else if (jsTrim (review_text.getD "")).length = 0 then
    (db, .badRequest)
  else if db.shops.any (fun r => r.id == shopId) then
    let row : ReviewRow :=
      { id := db.nextReviewId
        chayakkada_id := shopId
        review_text := jsTrim (review_text.getD "")
        reviewer_name :=
          match reviewer_name with
          | some r => if r = "" then "Anonymous" else r
          | none => "Anonymous"
        created_at := now }
    ({ db with reviews := db.reviews ++ [row], nextReviewId := db.nextReviewId + 1 }, .ok row)
  else (db, .serverError)

/-! ### Helper lemmas about the store -/

theorem upsertShop_mem_place (db : DBState) (now : ℕ) (f : ShopFields) :
    ∃ r ∈ (upsertShop db now f).1.shops, r.google_place_id = f.google_place_id := by
  unfold upsertShop
  cases hfind : db.shops.find? (fun x => x.google_place_id == f.google_place_id) with
  | none =>
    exact ⟨_, List.mem_append_right _ (List.mem_singleton.mpr rfl), rfl⟩
  | some r =>
    have hr : r ∈ db.shops := List.mem_of_find?_eq_some hfind
    have hp := List.find?_some hfind
    refine ⟨_, List.mem_map_of_mem _ hr, ?_⟩
    rw [if_pos hp]
    simpa using hp

/-! ### C6 -/

/-- C6: submitting the same `google_place_id` twice, starting from a
store that does not contain it, leaves exactly one row for that
identifier; its name, address and rating come from the second
submission; and the second call returns the same id as the first instead
of failing (the upsert is total). -/
theorem upsert_idempotent_on_place_id (db0 : DBState) (t1 t2 : ℕ) (f1 f2 : ShopFields)
    (hg : f2.google_place_id = f1.google_place_id)
    (h0 : ∀ r ∈ db0.shops, r.google_place_id ≠ f1.google_place_id) :
    ((upsertShop (upsertShop db0 t1 f1).1 t2 f2).1.shops.filter
        (fun r => r.google_place_id == f1.google_place_id)).length = 1 ∧
    (∀ r ∈ (upsertShop (upsertShop db0 t1 f1).1 t2 f2).1.shops,
      r.google_place_id = f1.google_place_id →
        r.name = f2.name ∧ r.address = f2.address ∧ r.google_rating = f2.google_rating) ∧
    (upsertShop (upsertShop db0 t1 f1).1 t2 f2).2 = (upsertShop db0 t1 f1).2 := by
  have hfind1 : db0.shops.find? (fun r => r.google_place_id == f1.google_place_id) = none :=
    List.find?_eq_none.mpr (fun r hr => by simp [h0 r hr])
  have h1 : upsertShop db0 t1 f1 =
      ({ db0 with
          shops := db0.shops ++ [newShopRow db0 t1 f1]
          nextShopId := db0.nextShopId + 1 }, db0.nextShopId) := by
    unfold upsertShop
    rw [hfind1]
  rw [h1]
  have hfind2 : (db0.shops ++ [newShopRow db0 t1 f1]).find?
        (fun r => r.google_place_id == f2.google_place_id)
      = some (newShopRow db0 t1 f1) := by
    rw [List.find?_append]
    have hnone : db0.shops.find? (fun r => r.google_place_id == f2.google_place_id) = none :=
      List.find?_eq_none.mpr (fun r hr => by simp [hg, h0 r hr])
    rw [hnone]
    simp [List.find?, newShopRow, hg]
  unfold upsertShop
  rw [hfind2]
  refine ⟨?_, ?_, rfl⟩
  · rw [List.map_append, List.filter_append]
    have e1 : ((db0.shops.map (fun s =>
        if s.google_place_id == f2.google_place_id then
          { s with name := f2.name, address := f2.address, google_rating := f2.google_rating }
        else s)).filter (fun r => r.google_place_id == f1.google_place_id)) = [] := by
      rw [List.filter_eq_nil_iff]
      intro a ha
      obtain ⟨x, hx, rfl⟩ := List.mem_map.mp ha
      rw [if_neg (by simp [hg, h0 x hx])]
      simp [h0 x hx]
    rw [e1]
    simp [newShopRow, hg]
  · intro r hr hrg
    obtain ⟨x, hx, rfl⟩ := List.mem_map.mp hr
    rcases List.mem_append.mp hx with hx0 | hx1
    · rw [if_neg (by simp [hg, h0 x hx0])] at hrg ⊢
      exact absurd hrg (h0 x hx0)
    · have hx1' := List.mem_singleton.mp hx1
      subst hx1'
      rw [if_pos (by simp [newShopRow, hg])]
      exact ⟨rfl, rfl, rfl⟩

/-- Witness for C6 at a concrete input: two submissions of `place1` into
an empty store leave exactly one row for it. -/
theorem upsert_idempotent_on_place_id_witness :
    ((upsertShop (upsertShop ⟨[], [], [], 1, 1, 1⟩ 0 ⟨"place1", "Old Name", 9, 76, none, none, []⟩).1
        0 ⟨"place1", "New Name", 10, 77, none, none, []⟩).1.shops.filter
      (fun r => r.google_place_id == "place1")).length = 1 :=
  (upsert_idempotent_on_place_id ⟨[], [], [], 1, 1, 1⟩ 0 0
    ⟨"place1", "Old Name", 9, 76, none, none, []⟩
    ⟨"place1", "New Name", 10, 77, none, none, []⟩ rfl (by simp)).1

/-! ### C10 -/

/-- C10: on a `google_place_id` conflict the upsert rewrites only name,
address and external rating; every row keeps its id, coordinates, photo
references and creation timestamp (and non-matching rows are untouched
entirely), the table sizes and the other tables are unchanged — so
re-submitting a shop with new coordinates or photos does not change the
stored location or photos. -/
theorem upsert_conflict_preserves_frame (db : DBState) (now : ℕ) (f : ShopFields)
    (hconf : ∃ r ∈ db.shops, r.google_place_id = f.google_place_id) :
    (upsertShop db now f).1.shops.length = db.shops.length ∧
    (upsertShop db now f).1.nextShopId = db.nextShopId ∧
    (upsertShop db now f).1.metadata = db.metadata ∧
    (upsertShop db now f).1.reviews = db.reviews ∧
    (∀ (i : ℕ) (s : ShopRow), db.shops[i]? = some s →
      ∃ s', (upsertShop db now f).1.shops[i]? = some s' ∧
        s'.id = s.id ∧ s'.latitude = s.latitude ∧ s'.longitude = s.longitude ∧
        s'.google_photo_references = s.google_photo_references ∧
        s'.created_at = s.created_at ∧
        (s.google_place_id ≠ f.google_place_id → s' = s) ∧
        (s.google_place_id = f.google_place_id →
          s'.name = f.name ∧ s'.address = f.address ∧ s'.google_rating = f.google_rating)) := by
  obtain ⟨r, hr, hrg⟩ := hconf
  cases hfind : db.shops.find? (fun x => x.google_place_id == f.google_place_id) with
  | none => exact absurd (by simp [hrg]) (List.find?_eq_none.mp hfind r hr)
  | some r' =>
    unfold upsertShop
    rw [hfind]
    refine ⟨by simp, rfl, rfl, rfl, ?_⟩
    intro i s hi
    refine ⟨if s.google_place_id == f.google_place_id then
        { s with name := f.name, address := f.address, google_rating := f.google_rating }
      else s, ?_, ?_⟩
    · show (db.shops.map _)[i]? = _
      rw [List.getElem?_map, hi]
      rfl
    · by_cases hc : s.google_place_id = f.google_place_id
      · rw [if_pos (by simp [hc])]
        exact ⟨rfl, rfl, rfl, rfl, rfl, fun h => absurd hc h, fun _ => ⟨rfl, rfl, rfl⟩⟩
      · rw [if_neg (by simp [hc])]
        exact ⟨rfl, rfl, rfl, rfl, rfl, fun _ => rfl, fun h => absurd h hc⟩

/-- Witness for C10 at a concrete input: a conflicting re-submission with
new coordinates and photos leaves the single stored row count unchanged. -/
theorem upsert_conflict_preserves_frame_witness :
    (upsertShop ⟨[⟨7, "place1", "Old Name", 9, 76, none, none, ["photo1"], 3⟩], [], [], 8, 1, 1⟩ 9
        ⟨"place1", "New Name", 10, 77, some "addr", some 4, ["photo2"]⟩).1.shops.length = 1 :=
  (upsert_conflict_preserves_frame ⟨[⟨7, "place1", "Old Name", 9, 76, none, none, ["photo1"], 3⟩],
      [], [], 8, 1, 1⟩ 9 ⟨"place1", "New Name", 10, 77, some "addr", some 4, ["photo2"]⟩
    ⟨⟨7, "place1", "Old Name", 9, 76, none, none, ["photo1"], 3⟩, by simp, rfl⟩).1

/-! ### C7 -/

/-- C7: the add-shop transaction is atomic and the connection is always
released: every code path releases the client (first conjunct); when the
metadata insert step fails, the committed state is the unchanged input
state — no shop row is committed — and the client sees the 500 response
(second conjunct); on success the shop row and, when metadata was
provided, its metadata row are committed together (third conjunct). -/
theorem addShop_transaction_atomic (db : DBState) (now : ℕ) (req : AddShopRequest) :
    (∀ b, (addChayakkada db now req b).released = true) ∧
    (requiredPresent req = true → metadataProvided req = true →
      (addChayakkada db now req true).db = db ∧
      (addChayakkada db now req true).response = .serverError) ∧
    (requiredPresent req = true →
      ∃ id, (addChayakkada db now req false).response = .ok id ∧
        (∃ r ∈ (addChayakkada db now req false).db.shops,
          r.google_place_id = (shopFieldsOfRequest req).google_place_id) ∧
        (metadataProvided req = true →
          ∃ m ∈ (addChayakkada db now req false).db.metadata, m.chayakkada_id = id)) := by
  refine ⟨?_, ?_, ?_⟩
  · intro b
    unfold addChayakkada
    by_cases h1 : requiredPresent req
    · by_cases h2 : metadataProvided req
      · cases b <;> simp [h1, h2]
      · simp [h1, h2]
    · simp [h1]
  · intro h1 h2
    unfold addChayakkada
    rw [h1, h2]
    exact ⟨rfl, rfl⟩
  · intro h1
    obtain ⟨r, hrmem, hrg⟩ := upsertShop_mem_place db now (shopFieldsOfRequest req)
    by_cases h2 : metadataProvided req
    · have haddc : addChayakkada db now req false =
          { db := insertMetadata (upsertShop db now (shopFieldsOfRequest req)).1 now
              (upsertShop db now (shopFieldsOfRequest req)).2 req
            response := .ok (upsertShop db now (shopFieldsOfRequest req)).2
            released := true } := by
        unfold addChayakkada
        rw [h1, h2]
        rfl
      rw [haddc]
      refine ⟨(upsertShop db now (shopFieldsOfRequest req)).2, rfl, ?_, ?_⟩
      · exact ⟨r, by simpa [insertMetadata] using hrmem, hrg⟩
      · intro _
        refine ⟨newMetadataRow (upsertShop db now (shopFieldsOfRequest req)).1 now
            (upsertShop db now (shopFieldsOfRequest req)).2 req, ?_, rfl⟩
        simp [insertMetadata]
    · refine ⟨(upsertShop db now (shopFieldsOfRequest req)).2, ?_, ?_, ?_⟩
      · simp [addChayakkada, h1, h2]
      · refine ⟨r, ?_, hrg⟩
        simpa [addChayakkada, h1, h2] using hrmem
      · intro hmp
        exact absurd hmp (by simp [h2])

/-- Witness for C7 at a concrete input: a request that carries metadata,
run against an empty store with an injected metadata-insert failure,
commits nothing and reports the server error. -/
theorem addShop_transaction_atomic_witness :
    (addChayakkada ⟨[], [], [], 1, 1, 1⟩ 0
        ⟨some "place1", some "Shop", some 9, some 76, none, none, none, some 4, none, none, none⟩
        true).db = ⟨[], [], [], 1, 1, 1⟩ ∧
    (addChayakkada ⟨[], [], [], 1, 1, 1⟩ 0
        ⟨some "place1", some "Shop", some 9, some 76, none, none, none, some 4, none, none, none⟩
        true).response = .serverError :=
  (addShop_transaction_atomic ⟨[], [], [], 1, 1, 1⟩ 0
      ⟨some "place1", some "Shop", some 9, some 76, none, none, none, some 4, none, none, none⟩).2.1
    (by norm_num [requiredPresent, jsTruthyStr, jsTruthyNum]
        exact ⟨by decide, by decide⟩)
    (by norm_num [metadataProvided, jsTruthyNum])

/-! ### C8 -/

/-- C8: add-review rejects a missing, empty or whitespace-only review
text with the 400 response and stores nothing; any text whose trimmed
form has between 1 and 1000 characters is accepted (for an existing
shop), the trimmed text is what gets stored, and a missing reviewer name
defaults to "Anonymous". -/
theorem addReview_validation (db : DBState) (now : ℕ) (shopId : ℕ)
    (review_text reviewer_name : Option String) :
    ((review_text = none ∨ ∃ t, review_text = some t ∧ jsTrim t = "") →
      addReview db now shopId review_text reviewer_name = (db, .badRequest)) ∧
    (∀ t, review_text = some t → 1 ≤ (jsTrim t).length → (jsTrim t).length ≤ 1000 →
      (∃ r ∈ db.shops, r.id = shopId) →
      ∃ row, (addReview db now shopId review_text reviewer_name).2 = .ok row ∧
        row.review_text = jsTrim t ∧
        (addReview db now shopId review_text reviewer_name).1.reviews = db.reviews ++ [row] ∧
        (reviewer_name = none → row.reviewer_name = "Anonymous")) := by
  constructor
  · rintro (rfl | ⟨t, rfl, htrim⟩)
    · simp [addReview, jsTruthyStr]
    · by_cases ht : t = ""
      · subst ht
        simp [addReview, jsTruthyStr]
      · unfold addReview
        rw [if_neg (by simp [jsTruthyStr, ht])]
        rw [if_pos (by simp [htrim])]
  · rintro t rfl h1 - ⟨r, hr, hid⟩
    have ht0 : t ≠ "" := by
      intro h
      subst h
      rw [show jsTrim "" = "" from rfl] at h1
      simp at h1
    unfold addReview
    rw [if_neg (by simp [jsTruthyStr, ht0])]
    rw [if_neg (by simp only [Option.getD_some]; omega)]
    rw [if_pos (List.any_eq_true.mpr ⟨r, hr, by simp [hid]⟩)]
    exact ⟨_, rfl, rfl, rfl, fun h => by subst h; rfl⟩

/-- Witness for C8 at a concrete input: a review with surrounding
whitespace is stored trimmed, with the "Anonymous" default. -/
theorem addReview_validation_witness :
    ∃ row, (addReview ⟨[⟨1, "place1", "Shop", 9, 76, none, none, [], 0⟩], [], [], 2, 1, 1⟩ 5 1
        (some "  nalla chaya  ") none).2 = .ok row ∧
      row.review_text = jsTrim "  nalla chaya  " ∧
      (addReview ⟨[⟨1, "place1", "Shop", 9, 76, none, none, [], 0⟩], [], [], 2, 1, 1⟩ 5 1
        (some "  nalla chaya  ") none).1.reviews = [] ++ [row] ∧
      (none = (none : Option String) → row.reviewer_name = "Anonymous") :=
  (addReview_validation ⟨[⟨1, "place1", "Shop", 9, 76, none, none, [], 0⟩], [], [], 2, 1, 1⟩ 5 1
      (some "  nalla chaya  ") none).2 "  nalla chaya  " rfl
    (by decide) (by decide)
    ⟨⟨1, "place1", "Shop", 9, 76, none, none, [], 0⟩, by simp, rfl⟩

end Chayakkada
